import Mathlib

/-!
Verification of the purchase-creation and totals-computation pipeline of the
`my-any-cart-backend` repository (Django / Django REST Framework).

The embedding models, from the source:
  * `src/cart/serializers.py` — `PurchaseItemInputSerializer`,
    `PurchaseCreateSerializer` (field coercion, cross-field validation, the
    `create` method with idempotency lookup and monetary aggregation);
  * `src/cart/models.py` — the `Purchase` / `PurchaseItem` rows, the
    partial unique constraint on `(user, idempotency_key)`;
  * `src/cart/views.py` — `PurchaseViewSet.create` (validate, save, then
    re-save the `user` field).

Python `Decimal` values are modelled as rationals (`ℚ`); a decimal string
input such as `"1.995"` is the rational `1995/1000`.  Inputs are assumed to
be written in canonical form (no trailing fractional zeros), so "has at most
2 decimal places" is the predicate `(100·x).den = 1`.

Django REST Framework field semantics used by the source and reflected here:
  * `ModelSerializer` maps a model field that declares `choices` to a
    `ChoiceField`; `ChoiceField.to_internal_value` rejects any input that is
    not literally one of the choice keys, before any `validate_<field>`
    method runs.  `Purchase.currency` declares `choices=ISO4217_CHOICES`.
  * `DecimalField(max_digits=10, decimal_places=2).to_internal_value`
    rejects inputs with more than 10 digits, more than 2 decimal places, or
    more than 8 whole digits (`validate_precision`); the `min_value`
    validator then rejects negatives.
  * `CharField` strips surrounding whitespace and rejects blank values
    unless `allow_blank`; `max_length` is checked on the stripped value.
  * `Serializer.to_internal_value` runs every field's coercion, collecting
    field errors; the object-level `validate` only runs when no field
    erred.
  * A field with `required=False` that is absent from the payload is simply
    missing from `validated_data`; the model default applies at creation.

The store is modelled as an explicit list of rows; one request is one
sequential execution (the transaction of `@transaction.atomic`).  The race
of spec §4.3 is modelled by `serializerCreateRaced`, which runs the same
`create` body but lets the store differ between the lookup and the insert.

A load-bearing fact of the source: `Purchase.id` (`models.py:73`) is a
`UUIDField(primary_key=True, editable=False)` with **no default**, and
nothing in the repository ever assigns it — no `save()` override, no
signal, no migration-supplied default.  Django therefore issues every
`INSERT INTO cart_purchase` with `id = NULL`, which violates the primary
key's NOT NULL constraint: no create request can ever commit a `Purchase`.
The embedding keeps this error path: instances are built with a null id
and the modelled insert rejects them, so rows can exist only when seeded
out of band (which the idempotency-hit path then serves correctly).
-/

/- The kernel-level arithmetic of `Rat` is hidden behind `@[irreducible]`
markers in Batteries; re-open them so that concrete monetary computations
evaluate by `decide`. -/
set_option allowUnsafeReducibility true
attribute [semireducible] Rat.mul Rat.add Rat.inv Rat.sub Rat.neg Rat.blt

namespace MyAnyCart

/-- Equality of `Except` values is decidable componentwise. -/
instance {ε α : Type} [DecidableEq ε] [DecidableEq α] :
    DecidableEq (Except ε α) := fun a b => by
  cases a with
  | error e =>
    cases b with
    | error f =>
      exact if h : e = f then isTrue (by rw [h]) else isFalse (by simp [h])
    | ok y => exact isFalse (by simp)
  | ok x =>
    cases b with
    | error f => exact isFalse (by simp)
    | ok y =>
      exact if h : x = y then isTrue (by rw [h]) else isFalse (by simp [h])

/-- Python `str.strip` / DRF `trim_whitespace`, written over the character
list so that it evaluates by kernel reduction. -/
def pyStrip (s : String) : String :=
  ⟨((s.data.dropWhile Char.isWhitespace).reverse.dropWhile
      Char.isWhitespace).reverse⟩

/-- Python `str.upper` for ASCII currency codes, written over the character
list so that it evaluates by kernel reduction. -/
def pyUpper (s : String) : String := ⟨s.data.map Char.toUpper⟩

/-! ### Money: `Decimal.quantize(TWOPL, rounding=ROUND_HALF_UP)` -/

/-- `x.quantize(Decimal("0.01"), rounding=ROUND_HALF_UP)`:
round to 2 fractional digits, ties away from zero (Python `ROUND_HALF_UP`). -/
def round2 (x : ℚ) : ℚ :=
  if 0 ≤ x then (⌊x * 100 + 1/2⌋ : ℚ) / 100
  else -((⌊-x * 100 + 1/2⌋ : ℚ) / 100)

/-! ### Currencies (`src/cart/models.py`, `ISO4217_CHOICES`) -/

/-- The fixed supported-currency set (`VALID_CURRENCIES` in the source,
built from `ISO4217_CHOICES`). -/
def VALID_CURRENCIES : List String :=
  ["USD", "EUR", "CNY", "JPY", "GBP", "INR", "BRL",
   "AUD", "CAD", "CHF", "MXN", "KRW", "TRY", "ZAR"]

/-! ### Raw input -/

/-- One raw client-supplied item dict.  `price` / `unit_price` are absent or
a decimal value; `quantity` is an integer (the JSON number). -/
structure RawItem where
  name : String
  price : Option ℚ
  unit_price : Option ℚ
  quantity : ℤ
deriving DecidableEq, Repr

/-- The raw create-request body, after the view has merged the optional
`Idempotency-Key` header into `idempotency_key`.  `none` means the key is
absent (or JSON null, which the source treats the same way).  `tags` is not
modelled: no verified property concerns it. -/
structure RawRequest where
  cart_name : Option String
  store_name : Option String
  currency : Option String
  notes : Option String
  idempotency_key : Option String
  products : Option (List RawItem)
  items : Option (List RawItem)
deriving DecidableEq, Repr

/-! ### Item field validation (`PurchaseItemInputSerializer`) -/

/-- Field-level errors of one item, in DRF's declaration order. -/
inductive ItemFieldErr where
  | nameBlank
  | nameTooLong
  | priceMaxDigits
  | priceMaxDecimalPlaces
  | priceMaxWholeDigits
  | priceMinValue
  | unitPriceMaxDigits
  | unitPriceMaxDecimalPlaces
  | unitPriceMaxWholeDigits
  | unitPriceMinValue
  | quantityMinValue
deriving DecidableEq, Repr

/-- Error result of validating one item: either field-level errors, or the
object-level `"Either 'price' or 'unit_price' is required."`. -/
inductive ItemErr where
  | fieldErrors (errs : List ItemFieldErr)
  | priceRequired
deriving DecidableEq, Repr

/-- A validated `(name, price, quantity)` triple. -/
structure ValidItem where
  name : String
  price : ℚ
  quantity : ℤ
deriving DecidableEq, Repr

/-- `x` has at most two decimal places (canonical decimal input). -/
def twoDp (x : ℚ) : Bool := (x * 100).den == 1

/-- The number of fractional digits of a canonical decimal input: the least
`d` with `x·10^d` integral (`none` for a value no decimal literal denotes;
40 bounds every input the serializer's `max_digits=10` could accept). -/
def decExponent (x : ℚ) : Option ℕ :=
  (List.range 41).find? fun d => (x * (10 : ℚ) ^ d).den == 1

/-- Significant-digit bound of `Decimal.as_tuple()` as DRF's
`validate_precision` counts it: the mantissa `x·10^d` (with `d` the written
fractional digits) has at most `n` digits, i.e. `|x·10^d| < 10^n`.  A value
no decimal literal denotes fails the bound. -/
def sigDigitsLe (x : ℚ) (n : ℕ) : Bool :=
  match decExponent x with
  | some d => |x * (10 : ℚ) ^ d| < (10 : ℚ) ^ n
  | none => false

/-- At most `n` whole digits: `|x| < 10^n`.  DRF checks
`max_whole_digits = max_digits - decimal_places = 8` after the
decimal-places check passed, where it is exactly this bound. -/
def wholeDigitsLt (x : ℚ) (n : ℕ) : Bool := |x| < (10 : ℚ) ^ n

/-- `DecimalField(max_digits=10, decimal_places=2, min_value=0)` checks, in
DRF's order (`validate_precision`: max_digits, decimal_places,
max_whole_digits; then the `min_value` validator). -/
def decimalFieldErrs (x : ℚ) (eDigits eDp eWhole eMin : ItemFieldErr) :
    List ItemFieldErr :=
  if ¬ sigDigitsLe x 10 then [eDigits]
  else if ¬ twoDp x then [eDp]
  else if ¬ wholeDigitsLt x 8 then [eWhole]
  else if x < 0 then [eMin]
  else []

/-- `CharField(max_length=180)` on `name`: strip, reject blank, bound. -/
def nameFieldErrs (s : String) : List ItemFieldErr :=
  if pyStrip s = "" then [ItemFieldErr.nameBlank]
  else if 180 < (pyStrip s).length then [ItemFieldErr.nameTooLong]
  else []

/-- All field-level errors of one raw item (DRF collects them per field). -/
def itemFieldErrs (it : RawItem) : List ItemFieldErr :=
  nameFieldErrs it.name ++
  (match it.price with
   | none => []
   | some x => decimalFieldErrs x .priceMaxDigits .priceMaxDecimalPlaces
       .priceMaxWholeDigits .priceMinValue) ++
  (match it.unit_price with
   | none => []
   | some x => decimalFieldErrs x .unitPriceMaxDigits
       .unitPriceMaxDecimalPlaces .unitPriceMaxWholeDigits
       .unitPriceMinValue) ++
  (if it.quantity < 1 then [ItemFieldErr.quantityMinValue] else [])

/-- `PurchaseItemInputSerializer.run_validation`: field coercion first;
only when every field passed does the object-level `validate` run, which
requires at least one of `price` / `unit_price` and lets `price` win when
both are present (source lines 27–37). -/
def validateItem (it : RawItem) : Except ItemErr ValidItem :=
  match itemFieldErrs it with
  | [] =>
    match it.price, it.unit_price with
    | none, none => .error .priceRequired
    | some p, _ => .ok ⟨pyStrip it.name, p, it.quantity⟩
    | none, some up => .ok ⟨pyStrip it.name, up, it.quantity⟩
  | e :: es => .error (.fieldErrors (e :: es))

/-! ### Request-level validation (`PurchaseCreateSerializer.is_valid`) -/

/-- Field-level errors of the create request (Meta.fields order).
`productsErr` carries the failing items' indices with their errors, as DRF's
`ListSerializer` reports per-child errors. -/
inductive FieldErr where
  | cartNameRequired
  | cartNameBlank
  | cartNameTooLong
  | storeNameTooLong
  | currencyInvalidChoice (input : String)
  | idemKeyTooLong
  | productsErr (errs : List (ℕ × ItemErr))
deriving DecidableEq, Repr

/-- The serializer's `validated_data` (before the hidden `user` is added).
`none` in an optional field means the key was absent from the payload, so
the model default applies at creation. -/
structure Validated where
  cart_name : String
  store_name : Option String
  currency : Option String
  notes : Option String
  idempotency_key : Option String
  products : Option (List ValidItem)
deriving DecidableEq, Repr

/-- `PurchaseCreateSerializer.to_internal_value`'s alias step (source lines
69–73): when the body has no `products` key but has an `items` key, the
value under `items` is moved to `products`. -/
def aliasItems (r : RawRequest) : RawRequest :=
  if r.products = none ∧ r.items ≠ none then
    { r with products := r.items, items := none }
  else r

/-- `validate_currency` (source lines 75–81), embedded verbatim.  It runs
per-field after the `ChoiceField` coercion, so for reachable inputs the
value is already a valid uppercase choice. -/
def validate_currency (value : String) : Except String String :=
  if value = "" then .ok "EUR"
  else
    let v := pyUpper value
    if VALID_CURRENCIES.contains v then .ok v
    else .error "Unsupported currency"

/-- `validate_idempotency_key` (source lines 83–87): `None` stays `None`,
otherwise strip, and coerce the empty string to `None`. -/
def validate_idempotency_key (value : Option String) : Option String :=
  match value with
  | none => none
  | some s => if pyStrip s = "" then none else some (pyStrip s)

/-- `cart_name`: required `CharField(max_length=120)`. -/
def cartNameErrs (c : Option String) : List FieldErr :=
  match c with
  | none => [FieldErr.cartNameRequired]
  | some s =>
    if pyStrip s = "" then [FieldErr.cartNameBlank]
    else if 120 < (pyStrip s).length then [FieldErr.cartNameTooLong]
    else []

/-- `store_name`: optional, `allow_blank`, `CharField(max_length=120)`. -/
def storeNameErrs (c : Option String) : List FieldErr :=
  match c with
  | none => []
  | some s => if 120 < (pyStrip s).length then [FieldErr.storeNameTooLong] else []

/-- `currency`: the `ModelSerializer` builds a `ChoiceField` from the model
field's `choices`, so any input not literally in the choice set is rejected
with an invalid-choice error before `validate_currency` runs. -/
def currencyFieldErrs (c : Option String) : List FieldErr :=
  match c with
  | none => []
  | some s =>
    if VALID_CURRENCIES.contains s then []
    else [FieldErr.currencyInvalidChoice s]

/-- `idempotency_key`: optional `CharField(max_length=64)`, blank and null
allowed; the `CharField` strips surrounding whitespace before the
`MaxLengthValidator` runs. -/
def idemKeyErrs (c : Option String) : List FieldErr :=
  match c with
  | none => []
  | some s =>
    if 64 < (pyStrip s).length then [FieldErr.idemKeyTooLong] else []

/-- Per-child validation of the `products` list (DRF `many=True`): the
indices of failing items paired with their errors. -/
def productsChildErrs (l : List RawItem) : List (ℕ × ItemErr) :=
  (l.enum.filterMap fun p =>
    match validateItem p.2 with
    | .ok _ => none
    | .error e => some (p.1, e))

/-- All field-level errors of the request, in field order. -/
def requestFieldErrs (r : RawRequest) : List FieldErr :=
  cartNameErrs r.cart_name ++ storeNameErrs r.store_name ++
  currencyFieldErrs r.currency ++ idemKeyErrs r.idempotency_key ++
  (match r.products with
   | none => []
   | some l =>
     match productsChildErrs l with
     | [] => []
     | e :: es => [FieldErr.productsErr (e :: es)])

/-- The coerced `validated_data` of a request all of whose fields passed:
item children validated, `currency` passed through `validate_currency`
(identity on valid choices), `idempotency_key` normalized. -/
def coerceRequest (r : RawRequest) : Validated :=
  { cart_name := pyStrip (r.cart_name.getD "")
    store_name := r.store_name.map pyStrip
    currency := r.currency.bind fun s =>
      match validate_currency s with
      | .ok v => some v
      | .error _ => some s
    notes := r.notes.map pyStrip
    idempotency_key := validate_idempotency_key r.idempotency_key
    products := r.products.map fun l =>
      l.filterMap fun it =>
        match validateItem it with
        | .ok v => some v
        | .error _ => none }

/-- `serializer.is_valid(raise_exception=True)`: apply the `items` alias,
collect field errors, and produce `validated_data` when there are none. -/
def validateReq (r : RawRequest) : Except (List FieldErr) Validated :=
  let d := aliasItems r
  match requestFieldErrs d with
  | [] => .ok (coerceRequest d)
  | e :: es => .error (e :: es)

/-! ### The store (`Purchase` / `PurchaseItem` rows) -/

/-- A `Purchase` row / in-memory instance.  `id` models the
`UUIDField(primary_key=True, editable=False)` of `models.py:73`: the field
declares **no default** and nothing in the source ever assigns it, so an
instance built by `Purchase(...)` carries `id = None` (`none` here); only
rows seeded outside this code path can carry a non-null id.  `tags` and
timestamps are not modelled: no verified property concerns them. -/
structure Purchase where
  id : Option ℕ
  user : Option ℕ
  cart_name : String
  store_name : String
  currency : String
  notes : String
  idempotency_key : Option String
  items_count : ℕ
  total_amount : ℚ
deriving DecidableEq, Repr

/-- A stored `PurchaseItem` row (`purchase` is the FK to the purchase pk). -/
structure PurchaseItem where
  purchase : Option ℕ
  name : String
  unit_price : ℚ
  quantity : ℤ
deriving DecidableEq, Repr

/-- The relational store: the two tables. -/
structure Store where
  purchases : List Purchase
  items : List PurchaseItem
deriving DecidableEq, Repr

/-- The empty store. -/
def Store.empty : Store := ⟨[], []⟩

/-- Well-formedness of stored rows: primary keys are non-null (the database
enforces NOT NULL on a pk) and pairwise distinct. -/
def Store.WF (s : Store) : Prop :=
  (∀ p ∈ s.purchases, p.id ≠ none) ∧
  (s.purchases.map Purchase.id).Nodup

instance (s : Store) : Decidable s.WF := by
  unfold Store.WF; infer_instance

/-- The boolean row predicate of the idempotency lookup
`Purchase.objects.filter(user=user, idempotency_key=idem)`. -/
def matchesKey (user : Option ℕ) (k : String) (p : Purchase) : Bool :=
  p.user == user && p.idempotency_key == some k

/-- The idempotency lookup (source lines 102–107): `.first()` on the
filtered queryset; `none` when the key is absent.  The claims only exercise
states with at most one matching row, where the queryset ordering is
irrelevant. -/
def lookupIdem (s : Store) (user : Option ℕ) (idem : Option String) :
    Option Purchase :=
  match idem with
  | none => none
  | some k => s.purchases.find? (matchesKey user k)

/-- Number of stored purchases with the given `(user, idempotency_key)`. -/
def countMatches (s : Store) (user : Option ℕ) (k : String) : ℕ :=
  (s.purchases.filter (matchesKey user k)).length

/-! ### Aggregation and creation (`PurchaseCreateSerializer.create`) -/

/-- A normalized product as built in the `create` loop (source lines
111–124): price re-quantized, quantity coerced to int. -/
structure NormProduct where
  name : String
  unit_price : ℚ
  quantity : ℤ
deriving DecidableEq, Repr

/-- One iteration of the `create` loop: quantize the price, compute the
quantized line total, re-quantize the running subtotal, append the
normalized product. -/
def aggStep (acc : ℚ × List NormProduct) (p : ValidItem) :
    ℚ × List NormProduct :=
  let price := round2 p.price
  let line := round2 (price * (p.quantity : ℚ))
  let subtotal := round2 (acc.1 + line)
  (subtotal, acc.2 ++ [⟨p.name, price, p.quantity⟩])

/-- The `for p in products` loop of `create`, starting from
`subtotal = Decimal("0.00")` and `norm_products = []`. -/
def aggregate (products : List ValidItem) : ℚ × List NormProduct :=
  products.foldl aggStep (0, [])

/-- The in-memory instance built by `Purchase(**validated_data, ...)` for
`Purchase.objects.create`: absent optional fields take the model defaults
(`store_name=""`, `currency="EUR"`, `notes=""`); `id` stays `none` because
`Purchase.id` has no default and nothing assigns it. -/
def newPurchase (user : Option ℕ) (v : Validated)
    (itemsCount : ℕ) (total : ℚ) : Purchase :=
  { id := none
    user := user
    cart_name := v.cart_name
    store_name := v.store_name.getD ""
    currency := v.currency.getD "EUR"
    notes := v.notes.getD ""
    idempotency_key := v.idempotency_key
    items_count := itemsCount
    total_amount := total }

/-- The instance `create` attempts to insert for validated data `v`: the
aggregation loop's count and rounded total, and a null id. -/
def attemptedPurchase (user : Option ℕ) (v : Validated) : Purchase :=
  newPurchase user v (aggregate (v.products.getD [])).2.length
    (aggregate (v.products.getD [])).1

/-- A row falls under the partial unique constraint
`unique_idempotency_per_user` when its key is non-null and non-empty. -/
def constrained (p : Purchase) : Bool :=
  match p.idempotency_key with
  | none => false
  | some k => k != ""

/-- Errors the database raises on `INSERT INTO cart_purchase`:
the NOT NULL violation on the primary key (checked first — the row the
source builds always has `id = NULL`), or the `(user, idempotency_key)`
uniqueness violation. -/
inductive DbError where
  | notNullViolation
  | uniqueViolation
deriving DecidableEq, Repr

/-- The database's insert of a `Purchase` row: NOT NULL on the pk first,
then the partial unique constraint — two rows conflict when both fall
under the constraint and agree on `(user, idempotency_key)` with a
non-null user (SQL treats NULLs as distinct in the unique index). -/
def insertPurchase (s : Store) (p : Purchase) : Except DbError Store :=
  if p.id = none then .error .notNullViolation
  else if constrained p ∧ p.user ≠ none ∧
      s.purchases.any fun q =>
        constrained q && q.user == p.user &&
          q.idempotency_key == p.idempotency_key then
    .error .uniqueViolation
  else
    .ok { s with purchases := s.purchases ++ [p] }

/-- `PurchaseCreateSerializer.create` (source lines 95–138), sequential
execution: idempotency lookup (a hit returns the existing row and touches
nothing), then the aggregation loop, then `Purchase.objects.create` — whose
database error, if any, aborts the `@transaction.atomic` block and
propagates (the source has no exception handler) — then the bulk insert of
the `PurchaseItem` rows.  The `user` argument is the hidden field's
`CurrentUserDefault`; the `is_authenticated` guard of line 99 is the
identity here because an authenticated user is `some uid` and an anonymous
one `none`. -/
def serializerCreate (user : Option ℕ) (v : Validated) (s : Store) :
    Except DbError (Purchase × Store) :=
  let products := v.products.getD []
  match lookupIdem s user v.idempotency_key with
  | some existing => .ok (existing, s)
  | none =>
    let agg := aggregate products
    let p := newPurchase user v agg.2.length agg.1
    match insertPurchase s p with
    | .error e => .error e
    | .ok s' =>
      .ok (p, { s' with items := s'.items ++ agg.2.map fun np =>
        ⟨p.id, np.name, np.unit_price, np.quantity⟩ })

/-- The same `create` body, but with the store allowed to differ between
the lookup (`sLook`) and the insert (`sIns`): the interleaving of spec
§4.3, where a concurrent request commits a row with the same
`(user, idempotency_key)` after this request's lookup missed. -/
def serializerCreateRaced (user : Option ℕ) (v : Validated)
    (sLook sIns : Store) : Except DbError (Purchase × Store) :=
  let products := v.products.getD []
  match lookupIdem sLook user v.idempotency_key with
  | some existing => .ok (existing, sIns)
  | none =>
    let agg := aggregate products
    let p := newPurchase user v agg.2.length agg.1
    match insertPurchase sIns p with
    | .error e => .error e
    | .ok s' =>
      .ok (p, { s' with items := s'.items ++ agg.2.map fun np =>
        ⟨p.id, np.name, np.unit_price, np.quantity⟩ })

/-- Re-save of the `user` field done by the view after `serializer.save()`
(`purchase.save(update_fields=["user"])`, source `views.py` lines 37–38):
an UPDATE of the row carrying the instance's pk. -/
def updateUser (s : Store) (pid : Option ℕ) (u : Option ℕ) : Store :=
  { s with purchases := s.purchases.map fun q =>
      if q.id = pid then { q with user := u } else q }

/-- What a create request returns to the caller: field errors from
validation, or the uncaught database error (the view has no handler either,
so it surfaces as an internal server error), or the purchase. -/
inductive ViewError where
  | validationError (es : List FieldErr)
  | internalError (e : DbError)
deriving DecidableEq, Repr

/-- `PurchaseViewSet.create` (source `views.py` lines 26–47), for an
authenticated user `u`: validate (failures return the field errors and
leave the store untouched), run the serializer's `create` (a database
error aborts the transaction, leaves the store untouched and surfaces as
an internal error), then set `purchase.user = request.user` and save that
field. -/
def viewCreate (u : ℕ) (r : RawRequest) (s : Store) :
    Except ViewError Purchase × Store :=
  match validateReq r with
  | .error es => (.error (.validationError es), s)
  | .ok v =>
    match serializerCreate (some u) v s with
    | .error e => (.error (.internalError e), s)
    | .ok ps =>
      (.ok { ps.1 with user := some u }, updateUser ps.2 ps.1.id (some u))

/-! ### The spec's accumulation (§4.1 Money, §4.4 Aggregator) -/

/-- One step of the spec's accumulation: add the item's quantized line
total — (price quantized to 2 decimals, round-half-up) times quantity,
re-quantized — and re-quantize the partial sum. -/
def specLineStep (acc : ℚ) (it : ValidItem) : ℚ :=
  round2 (acc + round2 (round2 it.price * (it.quantity : ℚ)))

/-- Written from the spec's words, for comparison with the code's
`aggregate`: the left-to-right re-quantizing accumulation of quantized
line totals, starting from zero. -/
def specAccumTotal (products : List ValidItem) : ℚ :=
  products.foldl specLineStep 0

/-! ### Helper lemmas -/

/-- The subtotal of the `create` loop, from any accumulator, is the spec's
accumulation: the loop threads the subtotal exactly as `specLineStep`. -/
theorem foldl_aggStep_fst (P : List ValidItem) :
    ∀ (q : ℚ) (ns : List NormProduct),
      (P.foldl aggStep (q, ns)).1 = P.foldl specLineStep q := by
  induction P with
  | nil => intro q ns; rfl
  | cons p P ih =>
    intro q ns
    simp only [List.foldl_cons]
    exact ih _ _

/-- The normalized-product list of the `create` loop grows by one per item. -/
theorem foldl_aggStep_len (P : List ValidItem) :
    ∀ (q : ℚ) (ns : List NormProduct),
      (P.foldl aggStep (q, ns)).2.length = ns.length + P.length := by
  induction P with
  | nil => intro q ns; rfl
  | cons p P ih =>
    intro q ns
    simp only [List.foldl_cons]
    rw [ih]
    simp [aggStep]
    omega

/-- `total_amount` computed by the loop equals the spec's accumulation. -/
theorem aggregate_fst (P : List ValidItem) :
    (aggregate P).1 = specAccumTotal P :=
  foldl_aggStep_fst P 0 []

/-- The loop normalizes every item: one `NormProduct` per input item. -/
theorem aggregate_len (P : List ValidItem) :
    (aggregate P).2.length = P.length := by
  have := foldl_aggStep_len P 0 []
  simpa [aggregate] using this

/-- The view's `user` re-save is the identity when every row carrying the
saved id already has that user. -/
theorem updateUser_eq_self (s : Store) (pid : Option ℕ) (u : Option ℕ)
    (h : ∀ q ∈ s.purchases, q.id = pid → q.user = u) :
    updateUser s pid u = s := by
  unfold updateUser
  have hmap : s.purchases.map
      (fun q => if q.id = pid then { q with user := u } else q) =
      s.purchases.map id := by
    apply List.map_congr_left
    intro q hq
    by_cases hid : q.id = pid
    · have hu : q.user = u := h q hq hid
      simp only [hid, if_pos rfl, id]
      cases q
      simp_all
    · simp [hid]
  rw [hmap, List.map_id]

/-- Ids are injective on the rows of a well-formed store. -/
theorem Store.WF.id_inj {s : Store} (hWF : s.WF) :
    ∀ p ∈ s.purchases, ∀ q ∈ s.purchases, p.id = q.id → p = q :=
  List.inj_on_of_nodup_map hWF.2

/-- Re-setting `user` to its current value changes nothing. -/
theorem setUser_self (p : Purchase) (u : Option ℕ) (h : p.user = u) :
    { p with user := u } = p := by
  cases p; simp_all

/-- On a lookup miss, `create` attempts the insert with a null id and the
database rejects it: the NOT NULL violation propagates (there is no
exception handler). -/
theorem serializerCreate_miss (user : Option ℕ) (v : Validated) (s : Store)
    (hmiss : lookupIdem s user v.idempotency_key = none) :
    serializerCreate user v s = .error .notNullViolation := by
  have hins : insertPurchase s (newPurchase user v
      (aggregate (v.products.getD [])).2.length
      (aggregate (v.products.getD [])).1) = .error .notNullViolation := rfl
  unfold serializerCreate
  rw [hmiss]
  dsimp only
  rw [hins]

/-- The view on a lookup miss: the transaction aborts on the NOT NULL
violation, the store is untouched, and the error surfaces to the caller. -/
theorem viewCreate_miss_err (u : ℕ) (r : RawRequest) (s : Store)
    (v : Validated) (hv : validateReq r = .ok v)
    (hmiss : lookupIdem s (some u) v.idempotency_key = none) :
    viewCreate u r s = (.error (.internalError .notNullViolation), s) := by
  unfold viewCreate
  rw [hv]
  dsimp only
  rw [serializerCreate_miss (some u) v s hmiss]

/-- What a successful idempotency lookup guarantees about the row found. -/
theorem lookupIdem_found {s : Store} {user : Option ℕ} {k : String}
    {p : Purchase} (h : lookupIdem s user (some k) = some p) :
    p ∈ s.purchases ∧ p.user = user ∧ p.idempotency_key = some k := by
  unfold lookupIdem at h
  refine ⟨List.mem_of_find?_eq_some h, ?_⟩
  have hpred := List.find?_some h
  unfold matchesKey at hpred
  simp only [Bool.and_eq_true, beq_iff_eq] at hpred
  exact hpred

/-- The full view result on an idempotency hit: the existing row is
returned, nothing is inserted, and the `user` re-save leaves the store
unchanged (every row carrying the found id already has the requesting
user). -/
theorem viewCreate_hit_eq (u : ℕ) (r : RawRequest) (s : Store)
    (v : Validated) (k : String) (p : Purchase)
    (hv : validateReq r = .ok v) (hk : v.idempotency_key = some k)
    (hhit : lookupIdem s (some u) (some k) = some p)
    (hinj : ∀ q ∈ s.purchases, q.id = p.id → q.user = some u) :
    viewCreate u r s = (.ok p, s) := by
  obtain ⟨hmem, huser, hkey⟩ := lookupIdem_found hhit
  unfold viewCreate
  rw [hv]
  dsimp only
  have hs : serializerCreate (some u) v s = .ok (p, s) := by
    unfold serializerCreate
    rw [hk, hhit]
  rw [hs]
  dsimp only
  rw [setUser_self p (some u) huser, updateUser_eq_self s p.id (some u) hinj]

/-! ### Concrete inputs used by the claims -/

/-- A valid two-item request: Milk 1.99 × 3 and Eggs 4.50 × 2. -/
def w1req : RawRequest :=
  ⟨some "Groceries", none, none, none, none,
   some [⟨"Milk", some (199/100), none, 3⟩, ⟨"Eggs", some (9/2), none, 2⟩],
   none⟩

/-- `validated_data` of `w1req`. -/
def w1v : Validated :=
  ⟨"Groceries", none, none, none, none,
   some [⟨"Milk", 199/100, 3⟩, ⟨"Eggs", 9/2, 2⟩]⟩

/-- A request whose `products` list is present but empty. -/
def c4req : RawRequest :=
  ⟨some "Empty cart", none, none, none, none, some [], none⟩

/-- `validated_data` of `c4req`. -/
def c4v : Validated := ⟨"Empty cart", none, none, none, none, some []⟩

/-- A valid single item priced 1.99. -/
def c5item : RawItem := ⟨"Milk", some (199/100), none, 1⟩

/-- A request carrying lowercase currency `"eur"`. -/
def c5reqEur : RawRequest :=
  ⟨some "Trip", none, some "eur", none, none, some [c5item], none⟩

/-- A request carrying unsupported currency `"XXX"`. -/
def c5reqXXX : RawRequest :=
  ⟨some "Trip", none, some "XXX", none, none, some [c5item], none⟩

/-- The same request with the currency omitted. -/
def c5reqNoCur : RawRequest :=
  ⟨some "Trip", none, none, none, none, some [c5item], none⟩

/-- `validated_data` of `c5reqNoCur`: no currency key. -/
def c5vNoCur : Validated :=
  ⟨"Trip", none, none, none, none, some [⟨"Milk", 199/100, 1⟩]⟩

/-- The Milk item of the spec's example scenario: price `"1.995"`. -/
def milkItemRaw : RawItem := ⟨"Milk", some (1995/1000), none, 3⟩

/-- The create request of the spec's example scenario. -/
def c6req : RawRequest :=
  ⟨some "Cart", none, none, none, none, some [milkItemRaw], none⟩

/-- An item carrying neither `price` nor `unit_price`, and an invalid
quantity. -/
def c7cex : RawItem := ⟨"A", none, none, 0⟩

/-- An item carrying both `price` (1.50) and `unit_price` (0.99). -/
def c7both : RawItem := ⟨"Tea", some (3/2), some (99/100), 2⟩

/-- A store holding one unrelated prior purchase (seeded out of band, as
any existing row must be). -/
def preStore : Store :=
  ⟨[⟨some 0, some 1, "Old cart", "", "EUR", "", none, 0, 0⟩], []⟩

/-- The 3-item submission in which item 2 (index 1) has quantity 0. -/
def c8req : RawRequest :=
  ⟨some "Weekly", none, none, none, none,
   some [⟨"Milk", some (199/100), none, 1⟩,
         ⟨"Eggs", some (2 : ℚ), none, 0⟩,
         ⟨"Bread", some (1 : ℚ), none, 2⟩],
   none⟩

/-- A request supplying the product list under the `items` key. -/
def c10req : RawRequest :=
  ⟨some "Alias", none, none, none, none, none, some [c5item]⟩

/-- Validated data of a race request with key `"k1"`. -/
def c3v : Validated := ⟨"Race", none, none, none, some "k1", some []⟩

/-- The concurrent winner's committed row for `(user 1, "k1")`. -/
def c3winner : Purchase :=
  ⟨some 5, some 1, "Winner", "", "EUR", "", some "k1", 0, 0⟩

/-- The store as seen at insert time: the winner already committed. -/
def c3sIns : Store := ⟨[c3winner], []⟩

/-- A valid request under idempotency key `"key-1"`. -/
def c2r1 : RawRequest :=
  ⟨some "First", none, none, none, some "key-1",
   some [⟨"Milk", some (199/100), none, 3⟩], none⟩

/-- A different, also valid payload under the same key. -/
def c2r2 : RawRequest :=
  ⟨some "Second retry", none, none, none, some "key-1",
   some [⟨"Bread", some (5/4), none, 1⟩], none⟩

/-- A purchase row for `(user 1, "key-1")` seeded out of band. -/
def seedP : Purchase :=
  ⟨some 0, some 1, "First", "", "EUR", "", some "key-1", 1, 597/100⟩

/-- A store holding `seedP` and its item row. -/
def seedStore : Store := ⟨[seedP], [⟨some 0, "Milk", 199/100, 3⟩]⟩

/-! ### Claims -/

/-- Claim C1 (code bug): the claim says every valid create request stores
a Purchase with `items_count = |P|` and the re-quantizing accumulated
total.  The code computes exactly those aggregates — the attempted
instance below carries `items_count = 2` and `total_amount = 14.97`, the
spec's accumulation — but `Purchase.id` (a UUID primary key with no
default, `models.py:73`) is never assigned, so the insert violates NOT
NULL: the request fails with an uncaught IntegrityError and nothing is
stored. -/
theorem claim_C1 :
    validateReq w1req = .ok w1v ∧
    viewCreate 1 w1req Store.empty =
      (.error (.internalError .notNullViolation), Store.empty) ∧
    (attemptedPurchase (some 1) w1v).items_count = 2 ∧
    (attemptedPurchase (some 1) w1v).total_amount =
      specAccumTotal (w1v.products.getD []) ∧
    (attemptedPurchase (some 1) w1v).total_amount = 1497/100 ∧
    (attemptedPurchase (some 1) w1v).id = none := by decide

/-- Claim C2 (code bug): the claim says submitting twice under one
`(owner, key)` yields exactly one stored Purchase and the second call
returns the first call's record.  In the code neither call can store
anything — both die on the id NOT NULL violation — so zero Purchases
exist and the second call returns an error, not the first call's
record. -/
theorem claim_C2 :
    viewCreate 1 c2r1 Store.empty =
      (.error (.internalError .notNullViolation), Store.empty) ∧
    viewCreate 1 c2r2 Store.empty =
      (.error (.internalError .notNullViolation), Store.empty) ∧
    countMatches Store.empty (some 1) "key-1" = 0 := by decide

/-- Claim C3 (code bug): the claim says a uniqueness violation during the
write is caught, the lookup re-run, and the existing record returned.
The code has no exception handler at all, and its insert cannot even
reach the uniqueness constraint: the id NOT NULL violation fires first on
every insert.  At the §4.3 race state — lookup missed, the winner's
`(user 1, "k1")` row already committed — `create` propagates the
IntegrityError instead of returning the winner. -/
theorem claim_C3 :
    serializerCreateRaced (some 1) c3v Store.empty c3sIns =
      .error .notNullViolation ∧
    c3winner ∈ c3sIns.purchases ∧ c3winner.user = some 1 ∧
    c3winner.idempotency_key = some "k1" := by decide

/-- Counterexample to C4 as stated: the empty-`products` request passes
validation — no "at least one item required" ValidationError exists in
the source (`products` is `required=False`, `create` defaults it to
`[]`) — and then fails at the insert with the IntegrityError every
create hits. -/
theorem claim_C4_cex :
    validateReq c4req = .ok c4v ∧
    viewCreate 1 c4req Store.empty =
      (.error (.internalError .notNullViolation), Store.empty) := by decide

/-- Claim C4 (amended): a create request whose item sequence is empty
passes validation and reaches the write with a zero-item aggregate
(`items_count = 0`, `total_amount = 0`), where it fails like every create
on the defaultless id; the store is untouched and no Purchase is
created. -/
theorem claim_C4 (u : ℕ) (r : RawRequest) (s : Store) (v : Validated)
    (hv : validateReq r = .ok v) (hp : v.products.getD [] = [])
    (hmiss : lookupIdem s (some u) v.idempotency_key = none) :
    viewCreate u r s = (.error (.internalError .notNullViolation), s) ∧
    (attemptedPurchase (some u) v).items_count = 0 ∧
    (attemptedPurchase (some u) v).total_amount = 0 := by
  refine ⟨viewCreate_miss_err u r s v hv hmiss, ?_, ?_⟩
  · show (aggregate (v.products.getD [])).2.length = 0
    rw [hp]
    rfl
  · show (aggregate (v.products.getD [])).1 = 0
    rw [hp]
    rfl

/-- Witness for C4 (amended) at the concrete empty-`products` request. -/
theorem claim_C4_witness :
    viewCreate 1 c4req Store.empty =
      (.error (.internalError .notNullViolation), Store.empty) ∧
    (attemptedPurchase (some 1) c4v).items_count = 0 ∧
    (attemptedPurchase (some 1) c4v).total_amount = 0 :=
  claim_C4 1 c4req Store.empty c4v (by decide) (by decide) (by decide)

/-- Counterexample to C5 as stated: input `"eur"` is not accepted — the
`ModelSerializer` maps `Purchase.currency` (which declares `choices`) to a
`ChoiceField`, whose coercion rejects `"eur"` as an invalid choice before
`validate_currency` can uppercase it. -/
theorem claim_C5_cex :
    viewCreate 1 c5reqEur Store.empty =
      (.error (.validationError [.currencyInvalidChoice "eur"]),
       Store.empty) := by decide

/-- Claim C5 (amended): currency input must already be one of the
supported uppercase codes — `"eur"` and `"XXX"` are rejected with
invalid-choice ValidationErrors (not the unreachable `"Unsupported
currency"` message); an omitted currency passes validation and the
attempted instance carries the model default `"EUR"`, but nothing is
stored because the insert fails on the defaultless id. -/
theorem claim_C5 :
    viewCreate 1 c5reqEur Store.empty =
      (.error (.validationError [.currencyInvalidChoice "eur"]),
       Store.empty) ∧
    viewCreate 1 c5reqXXX Store.empty =
      (.error (.validationError [.currencyInvalidChoice "XXX"]),
       Store.empty) ∧
    validateReq c5reqNoCur = .ok c5vNoCur ∧ c5vNoCur.currency = none ∧
    (attemptedPurchase (some 1) c5vNoCur).currency = "EUR" ∧
    viewCreate 1 c5reqNoCur Store.empty =
      (.error (.internalError .notNullViolation), Store.empty) := by decide

/-- Counterexample to C6 as stated: the request with price `"1.995"` is
not accepted — `DecimalField(decimal_places=2)` rejects a third decimal
place during field coercion, so no Purchase results. -/
theorem claim_C6_cex :
    viewCreate 1 c6req Store.empty =
      (.error (.validationError
        [.productsErr [(0, .fieldErrors [.priceMaxDecimalPlaces])]]),
       Store.empty) := by decide

/-- Claim C6 (amended): the Milk item with price `"1.995"` fails item
validation with a max-decimal-places error (so the request never reaches
aggregation); the spec's arithmetic round2(1.995·3) = 5.99 is itself
correct, but unreachable for this input. -/
theorem claim_C6 :
    validateItem milkItemRaw = .error (.fieldErrors [.priceMaxDecimalPlaces]) ∧
    round2 ((1995/1000 : ℚ) * 3) = 599/100 := by decide

/-- Counterexample to C7 as stated: for an item with both price fields
absent but an invalid quantity, validation fails with the quantity field
error, not with the price-required error — DRF only runs the object-level
`validate` when every field coerced — so "fails with [price-required] iff
both absent" is false at this item. -/
theorem claim_C7_cex :
    c7cex.price = none ∧ c7cex.unit_price = none ∧
    validateItem c7cex = .error (.fieldErrors [.quantityMinValue]) ∧
    validateItem c7cex ≠ .error .priceRequired := by decide

/-- Claim C7 (amended): for every item dict whose individual fields pass
validation, the price-required ValidationError occurs if and only if both
`price` and `unit_price` are absent; and when both are present, `price` is
the canonical unit price of the validated item. -/
theorem claim_C7 (it : RawItem) (hf : itemFieldErrs it = []) :
    ((validateItem it = .error .priceRequired) ↔
      (it.price = none ∧ it.unit_price = none)) ∧
    (∀ p up, it.price = some p → it.unit_price = some up →
      validateItem it = .ok ⟨pyStrip it.name, p, it.quantity⟩) := by
  constructor
  · unfold validateItem
    rw [hf]
    cases hp : it.price with
    | none =>
      cases hup : it.unit_price with
      | none => simp
      | some up => simp
    | some p => simp
  · intro p up hp hup
    unfold validateItem
    rw [hf, hp]

/-- Witness for C7 (amended) at the both-present item: `price` 1.50 wins
over `unit_price` 0.99. -/
theorem claim_C7_witness :
    ((validateItem c7both = .error .priceRequired) ↔
      (c7both.price = none ∧ c7both.unit_price = none)) ∧
    validateItem c7both = .ok ⟨"Tea", 3/2, 2⟩ := by
  have h := claim_C7 c7both (by decide)
  exact ⟨h.1, (h.2 (3/2) (99/100) rfl rfl).trans (by decide)⟩

/-- Claim C8: whenever validation rejects a create request, the view
returns the field errors and the store is exactly the pre-request store —
no Purchase row and no PurchaseItem row is persisted. -/
theorem claim_C8 (u : ℕ) (r : RawRequest) (s : Store) (es : List FieldErr)
    (he : validateReq r = .error es) :
    viewCreate u r s = (.error (.validationError es), s) := by
  unfold viewCreate
  rw [he]

/-- Witness for C8 at the 3-item submission with quantity 0 in item 2,
over a non-empty store. -/
theorem claim_C8_witness :
    viewCreate 1 c8req preStore =
      (.error (.validationError
        [.productsErr [(1, .fieldErrors [.quantityMinValue])]]),
       preStore) :=
  claim_C8 1 c8req preStore _ (by decide)

/-- Claim C9: a create request never alters a previously stored Purchase —
whatever the request (invalid, a lookup miss that dies on the insert with
the transaction rolled back, or an idempotency hit), the prior purchase
rows form a prefix of the resulting rows, each with all its fields
unchanged (on a hit the view's `user` re-save writes back the value the
looked-up row already had). -/
theorem claim_C9 (u : ℕ) (r : RawRequest) (s : Store) (hWF : s.WF) :
    List.IsPrefix s.purchases ((viewCreate u r s).2).purchases := by
  cases hvr : validateReq r with
  | error es =>
    unfold viewCreate
    rw [hvr]
  | ok v =>
    cases hik : v.idempotency_key with
    | none =>
      have hmiss : lookupIdem s (some u) v.idempotency_key = none := by
        rw [hik]; rfl
      rw [viewCreate_miss_err u r s v hvr hmiss]
    | some k =>
      cases hl : lookupIdem s (some u) (some k) with
      | none =>
        have hmiss : lookupIdem s (some u) v.idempotency_key = none := by
          rw [hik]; exact hl
        rw [viewCreate_miss_err u r s v hvr hmiss]
      | some p =>
        obtain ⟨hmem, huser, hkey⟩ := lookupIdem_found hl
        have hinj : ∀ q ∈ s.purchases, q.id = p.id → q.user = some u := by
          intro q hq hqid
          rw [hWF.id_inj q hq p hmem hqid, huser]
        rw [viewCreate_hit_eq u r s v k p hvr hik hl hinj]

/-- Witness for C9: an idempotent-key request over a store already holding
a matching row leaves that row untouched. -/
theorem claim_C9_witness :
    List.IsPrefix seedStore.purchases
      ((viewCreate 1 c2r2 seedStore).2).purchases :=
  claim_C9 1 c2r2 seedStore (by decide)

/-- Claim C10: a request body with no `products` key but an `items` key
validates exactly as if the `items` value had been supplied under
`products` — the serializer's `to_internal_value` moves it there. -/
theorem claim_C10 (r : RawRequest) (l : List RawItem)
    (hp : r.products = none) (hi : r.items = some l) :
    validateReq r = validateReq { r with products := some l, items := none } := by
  unfold validateReq
  have h1 : aliasItems r = { r with products := some l, items := none } := by
    unfold aliasItems
    rw [hp, hi]
    simp
  have h2 : aliasItems { r with products := some l, items := none } =
      { r with products := some l, items := none } := by
    unfold aliasItems
    simp
  rw [h1, h2]

/-- Witness for C10 at a concrete aliased request. -/
theorem claim_C10_witness :
    validateReq c10req =
      validateReq { c10req with products := some [c5item], items := none } :=
  claim_C10 c10req [c5item] rfl rfl

end MyAnyCart
